import Mathlib

/-!
Shallow embedding of the connection-and-query-execution layer of the
mcp-kusto repository (module `src/kusto_mcp/kusto_connection.py`,
class `KustoConnectionManager`), together with theorems settling the
frozen claims C1..C10 about it.

Modelling choices, all taken from the source:
* The `connections` dict is an insertion-ordered association list from the
  key string `cluster ++ ":" ++ database` to client handles.
* Python truthiness of the optional string fields (`None` and the empty
  string are falsy) is made explicit by `truthy`.
* The env-override constructor branch does not assign the `config_file`
  attribute; the `Manager.config_file` boolean records whether the
  attribute exists, and reading it when absent raises `AttributeError`
  (exactly what `_save_config` does in that state).
* Exceptions are the `Except PyErr` monad, written out by hand; the
  azure backend (credential acquisition and `client.execute_query`) is an
  oracle `Backend`, and every operation returns the list of backend
  `Event`s it performed so that claims about cache hits never touching
  the backend are statable.
-/

/-- Python exception values that can cross the boundaries modelled here. -/
inductive PyErr where
  | kustoAuth (msg : String)
  | kustoService (msg : String)
  | attributeError (msg : String)
  | keyError (k : String)
  | indexError
  | jsonDecodeError (msg : String)
  | generic (msg : String)
deriving DecidableEq

/-- The value of Python `str(e)` for a `PyErr`. -/
def PyErr.pyStr : PyErr → String
  | .kustoAuth m => m
  | .kustoService m => m
  | .attributeError m => m
  | .keyError k => "'" ++ k ++ "'"
  | .indexError => "list index out of range"
  | .jsonDecodeError m => m
  | .generic m => m

/-- A `kd.KustoClient` handle: the constructor arguments that built it
(the cluster URL and the AAD token obtained from the credential). -/
structure Client where
  cluster : String
  token : String
deriving DecidableEq

/-- A row of a Kusto result table, as the dict access patterns in the
source use it: a mapping from column name to string value. -/
abbrev Row := List (String × String)

/-- A backend reply object. `primary_results` is `none` when the object
lacks the attribute (the source guards with `hasattr`), otherwise the
list of result tables, each a list of rows. -/
structure Reply where
  primary_results : Option (List (List Row))
deriving DecidableEq

/-- One observable interaction with the azure backend. -/
inductive Event where
  | acquireToken
  | clientQuery (client : Client) (database query : String)
deriving DecidableEq

/-- Oracle for the azure backend: outcome of
`DefaultAzureCredential().get_token(...).token`, and outcome of
`client.execute_query(database, query)`. -/
structure Backend where
  getToken : Except PyErr String
  runQuery : Client → String → String → Except PyErr Reply

/-- Python truthiness of an optional string: `None` and `""` are falsy. -/
def truthy : Option String → Bool
  | none => false
  | some s => !(s == "")

/-- Contents of the sidecar config file `~/.kusto_mcp_config.json`:
either not valid JSON, or a JSON object whose `cluster` / `database`
keys may each be present or absent (`dict.get` yields `None` if absent). -/
inductive ConfigContent where
  | invalid
  | record (cluster database : Option String)
deriving DecidableEq

/-- External world: the sidecar file (`none` when it does not exist) and
whether opening it for reading / writing raises `IOError`. -/
structure World where
  file : Option ConfigContent
  readFails : Bool
  writeFails : Bool
deriving DecidableEq

/-- The mutable state of a `KustoConnectionManager`: the `connections`
dict, the two current-identity fields, and whether the `config_file`
attribute was ever assigned (it is not, on the env-override constructor
path). -/
structure Manager where
  connections : List (String × Client)
  current_cluster : Option String
  current_database : Option String
  config_file : Bool
deriving DecidableEq

/-- The two environment variables read by the constructor. -/
structure Env where
  azure_kusto_cluster : Option String
  azure_kusto_database : Option String

/-- `_load_config`: if the file exists, read and parse it, setting the
two identity fields from the record; a read error or invalid JSON is
swallowed and leaves the defaults. -/
def load_config (m : Manager) (w : World) : Manager :=
  match w.file with
  | none => m
  | some ConfigContent.invalid => m
  | some (ConfigContent.record c d) =>
      if w.readFails then m
      else { m with current_cluster := c, current_database := d }

/-- `KustoConnectionManager.__init__`: adopt the environment override if
both variables are truthy (this branch never assigns `config_file`),
otherwise set `config_file` and load the sidecar file. -/
def mkManager (env : Env) (w : World) : Manager :=
  let base : Manager :=
    { connections := [], current_cluster := none, current_database := none,
      config_file := false }
  if truthy env.azure_kusto_cluster && truthy env.azure_kusto_database then
    { base with
        current_cluster := env.azure_kusto_cluster,
        current_database := env.azure_kusto_database }
  else
    load_config { base with config_file := true } w

/-- `_save_config`: accessing the missing `config_file` attribute raises
`AttributeError` (uncaught there: only `IOError` is caught); a write
`IOError` is swallowed, leaving the file as it was; otherwise the
current identity record is written. -/
def save_config (m : Manager) (w : World) : Except PyErr World :=
  if !m.config_file then
    Except.error (PyErr.attributeError
      "KustoConnectionManager object has no attribute config_file")
  else if w.writeFails then
    Except.ok w
  else
    Except.ok { w with
      file := some (ConfigContent.record m.current_cluster m.current_database) }

/-- The connection key f-string `cluster:database`. -/
def connectionKey (cluster database : String) : String :=
  cluster ++ ":" ++ database

/-- The probe query issued by `initialize_connection`. -/
def probeQuery : String :=
  ".show database schema | limit 1"

/-- `initialize_connection(cluster, database)`. Cache hit: set the
identity, save the config (any exception there propagates: that call is
outside the `try`), return `True`. Cache miss: inside `try`, acquire a
token, build the client, run the probe query, then cache the handle, set
the identity and save the config; every exception in the `try` gives
`return False`, keeping whatever mutations already happened. -/
def initialize_connection (B : Backend) (m : Manager) (w : World)
    (cluster database : String) :
    Except PyErr (Bool × Manager × World × List Event) :=
  let key := connectionKey cluster database
  if (m.connections.lookup key).isSome then
    let m1 := { m with
      current_cluster := some cluster, current_database := some database }
    match save_config m1 w with
    | Except.error e => Except.error e
    | Except.ok w1 => Except.ok (true, m1, w1, [])
  else
    match B.getToken with
    | Except.error _ => Except.ok (false, m, w, [Event.acquireToken])
    | Except.ok token =>
      let client : Client := { cluster := cluster, token := token }
      match B.runQuery client database probeQuery with
      | Except.error _ =>
          Except.ok (false, m, w,
            [Event.acquireToken, Event.clientQuery client database probeQuery])
      | Except.ok _ =>
        let m1 := { m with
          connections := m.connections ++ [(key, client)],
          current_cluster := some cluster,
          current_database := some database }
        match save_config m1 w with
        | Except.error _ =>
            Except.ok (false, m1, w,
              [Event.acquireToken, Event.clientQuery client database probeQuery])
        | Except.ok w1 =>
            Except.ok (true, m1, w1,
              [Event.acquireToken, Event.clientQuery client database probeQuery])

/-- `get_current_connection`: `None` if either identity field is falsy,
else `connections.get(key)`. -/
def get_current_connection (m : Manager) : Option Client :=
  if !(truthy m.current_cluster) || !(truthy m.current_database) then none
  else m.connections.lookup
    (connectionKey (m.current_cluster.getD "") (m.current_database.getD ""))

/-- The second component of the `(success, result)` pair returned by
`execute_query`: either the raw backend reply or an error-message string. -/
inductive Payload where
  | reply (r : Reply)
  | msg (s : String)
deriving DecidableEq

/-- The failure message returned when no connection is active. -/
def noActiveConnectionMsg : String :=
  "No active connection. Please connect to a Kusto cluster first."

/-- `execute_query(query)`: resolve the current handle; if `None`,
return the no-active-connection failure without touching the backend;
otherwise dispatch the query, returning `(True, result)` on success and
`(False, str(e))` on any exception. The manager state is returned
unchanged: the method performs no mutation. -/
def execute_query (B : Backend) (m : Manager) (query : String) :
    Manager × (Bool × Payload) × List Event :=
  match get_current_connection m with
  | none => (m, (false, Payload.msg noActiveConnectionMsg), [])
  | some client =>
    let db := m.current_database.getD ""
    match B.runQuery client db query with
    | Except.ok r =>
        (m, (true, Payload.reply r), [Event.clientQuery client db query])
    | Except.error e =>
        (m, (false, Payload.msg e.pyStr), [Event.clientQuery client db query])

/-- The list comprehension `[row["TableName"] for row in rows]`:
`KeyError` if some row lacks the column. -/
def extractTableNames : List Row → Except PyErr (List String)
  | [] => Except.ok []
  | r :: rest =>
    match r.lookup "TableName" with
    | none => Except.error (PyErr.keyError "TableName")
    | some v => (extractTableNames rest).map (fun vs => v :: vs)

/-- The fixed query issued by `get_tables`. -/
def tablesQuery : String :=
  ".show tables | project TableName"

/-- `get_tables()`: empty list unless a client resolves, the database is
truthy, the query succeeds, the reply has a nonempty `primary_results`,
and every row of the first table has a `TableName` column. -/
def get_tables (B : Backend) (m : Manager) : List String × List Event :=
  match get_current_connection m with
  | none => ([], [])
  | some _ =>
    if !(truthy m.current_database) then ([], [])
    else
      let res := execute_query B m tablesQuery
      let events := res.2.2
      match res.2.1 with
      | (true, Payload.reply r) =>
        match r.primary_results with
        | some (t :: _) =>
          match extractTableNames t with
          | Except.ok names => (names, events)
          | Except.error _ => ([], events)
        | _ => ([], events)
      | _ => ([], events)

/-- The query issued by `get_table_schema`. -/
def schemaQuery (table_name : String) : String :=
  ".show table " ++ table_name ++ " schema as json"

/-- `get_table_schema(table_name)`: extract
`primary_results[0][0]["Schema"]` and feed it to `json.loads` (the
parameter `json_loads`, an oracle for the stdlib parser); every failure
(no client, falsy database, query failure, missing attribute, empty
results, empty first table, missing column, parse error) yields `None`. -/
def get_table_schema {α : Type} (B : Backend)
    (json_loads : String → Except PyErr α) (m : Manager)
    (table_name : String) : Option α × List Event :=
  match get_current_connection m with
  | none => (none, [])
  | some _ =>
    if !(truthy m.current_database) then (none, [])
    else
      let res := execute_query B m (schemaQuery table_name)
      let events := res.2.2
      match res.2.1 with
      | (true, Payload.reply r) =>
        match r.primary_results with
        | some (t :: _) =>
          match t with
          | [] => (none, events)
          | row :: _ =>
            match row.lookup "Schema" with
            | none => (none, events)
            | some s =>
              match json_loads s with
              | Except.ok v => (some v, events)
              | Except.error _ => (none, events)
        | _ => (none, events)
      | _ => (none, events)

/-- `is_connected()`: both identity fields truthy and the key present. -/
def is_connected (m : Manager) : Bool :=
  if !(truthy m.current_cluster) || !(truthy m.current_database) then false
  else (m.connections.lookup
    (connectionKey (m.current_cluster.getD "") (m.current_database.getD ""))).isSome

/-- Python `x or "Not connected"` on an optional string field. -/
def orNotConnected : Option String → String
  | none => "Not connected"
  | some s => if s == "" then "Not connected" else s

/-- `get_connection_details()`. -/
def get_connection_details (m : Manager) : String × String :=
  (orNotConnected m.current_cluster, orNotConnected m.current_database)

/-- `close_connections()`: `connections.clear()`. -/
def close_connections (m : Manager) : Manager :=
  { m with connections := [] }

/-! ## Concrete fixtures used by closed theorems and witnesses -/

/-- A world with no sidecar file and working IO. -/
def w0 : World := { file := none, readFails := false, writeFails := false }

/-- A reply whose `primary_results` is the empty list. -/
def emptyReply : Reply := { primary_results := some [] }

/-- A fully cooperative backend: token acquisition and every query succeed. -/
def demoBackend : Backend :=
  { getToken := Except.ok "tok",
    runQuery := fun _ _ _ => Except.ok emptyReply }

/-- A backend whose every query raises a service error. -/
def failingBackend : Backend :=
  { getToken := Except.ok "tok",
    runQuery := fun _ _ _ => Except.error (PyErr.kustoService "Query error") }

/-- A manager constructed without environment override and with no sidecar
file: empty cache, no identity, `config_file` attribute set. -/
def fileManager : Manager :=
  mkManager { azure_kusto_cluster := none, azure_kusto_database := none } w0

/-- A manager constructed with both environment variables set: identity
adopted, `config_file` attribute never assigned. -/
def envManager : Manager :=
  mkManager { azure_kusto_cluster := some "https://c1",
              azure_kusto_database := some "db1" } w0

/-- A manager holding one established handle for `("c", "d")`, current. -/
def connectedManager : Manager :=
  { connections := [(connectionKey "c" "d", { cluster := "c", token := "tok" })],
    current_cluster := some "c", current_database := some "d",
    config_file := true }

/-! ## Helper lemmas -/

theorem lookup_append_of_lookup_none {α β : Type} [BEq α]
    (l1 l2 : List (α × β)) (k : α) (h : l1.lookup k = none) :
    (l1 ++ l2).lookup k = l2.lookup k := by
  induction l1 with
  | nil => rfl
  | cons p t ih =>
    rw [List.cons_append]
    rw [List.lookup] at h ⊢
    cases hk : (k == p.1) with
    | true => rw [hk] at h; simp at h
    | false => rw [hk] at h; exact ih h

theorem lookup_cons_self {β : Type} (k : String) (v : β)
    (l : List (String × β)) : ((k, v) :: l).lookup k = some v := by
  rw [List.lookup]
  simp

theorem current_some_truthy {m : Manager} {client : Client}
    (h : get_current_connection m = some client) :
    truthy m.current_cluster = true ∧ truthy m.current_database = true := by
  unfold get_current_connection at h
  split at h
  · exact absurd h (by simp)
  · next hcond =>
    have hb : (!truthy m.current_cluster || !truthy m.current_database) = false := by
      revert hcond
      cases truthy m.current_cluster <;> cases truthy m.current_database <;> simp
    constructor
    · revert hb; cases truthy m.current_cluster <;> simp
    · revert hb; cases truthy m.current_database <;> simp

theorem current_some_lookup {m : Manager} {client : Client}
    (h : get_current_connection m = some client) :
    m.connections.lookup
      (connectionKey (m.current_cluster.getD "") (m.current_database.getD ""))
      = some client := by
  unfold get_current_connection at h
  split at h
  · exact absurd h (by simp)
  · exact h

/-- The world produced by a successful (non-raising) `_save_config`. -/
def saveResult (m : Manager) (w : World) : World :=
  if w.writeFails then w
  else { w with
    file := some (ConfigContent.record m.current_cluster m.current_database) }

theorem save_config_ok (m : Manager) (w : World) (h : m.config_file = true) :
    save_config m w = Except.ok (saveResult m w) := by
  unfold save_config saveResult
  rw [h]
  cases w.writeFails <;> simp

theorem execute_query_none_eq (B : Backend) (m : Manager) (q : String)
    (h : get_current_connection m = none) :
    execute_query B m q = (m, (false, Payload.msg noActiveConnectionMsg), []) := by
  unfold execute_query
  rw [h]

theorem execute_query_ok_eq (B : Backend) (m : Manager) (q : String)
    (client : Client) (r : Reply)
    (hc : get_current_connection m = some client)
    (hq : B.runQuery client (m.current_database.getD "") q = Except.ok r) :
    execute_query B m q =
      (m, (true, Payload.reply r),
        [Event.clientQuery client (m.current_database.getD "") q]) := by
  unfold execute_query
  rw [hc]
  simp only [hq]

theorem execute_query_error_eq (B : Backend) (m : Manager) (q : String)
    (client : Client) (e : PyErr)
    (hc : get_current_connection m = some client)
    (he : B.runQuery client (m.current_database.getD "") q = Except.error e) :
    execute_query B m q =
      (m, (false, Payload.msg e.pyStr),
        [Event.clientQuery client (m.current_database.getD "") q]) := by
  unfold execute_query
  rw [hc]
  simp only [he]

/-! ## Claims -/

/-- Claim C1: the spec demands that if any exception occurs during
initialize_connection, the call returns False and the connections map is
unchanged. The code violates this: a manager built with the environment
override never has the `config_file` attribute, so `_save_config` raises
`AttributeError` after the handle has already been cached (line 125 runs
before line 128); the call returns False yet the map now holds the
handle. This closed theorem evaluates the code at that failing input:
a cooperative backend, the env-constructed manager (empty map), and a
fresh key; the call returns False while the map gains the entry. -/
theorem c1_env_override_failed_initialize_pollutes_map :
    envManager.connections = [] ∧
    envManager.config_file = false ∧
    initialize_connection demoBackend envManager w0 "https://c1" "db1" =
      Except.ok (false,
        { connections := [(connectionKey "https://c1" "db1",
            { cluster := "https://c1", token := "tok" })],
          current_cluster := some "https://c1",
          current_database := some "db1",
          config_file := false },
        w0,
        [Event.acquireToken,
         Event.clientQuery { cluster := "https://c1", token := "tok" }
           "db1" probeQuery]) := by
  refine ⟨rfl, rfl, rfl⟩

/-- Claim C2: whenever the backend call inside execute_query raises, the
method returns the pair (False, str(exception)) built from exactly the
stringified exception, and (being a total function here) never lets the
exception propagate. -/
theorem c2_execute_query_backend_error_returns_stringified
    (B : Backend) (m : Manager) (q : String) (client : Client) (e : PyErr)
    (hc : get_current_connection m = some client)
    (he : B.runQuery client (m.current_database.getD "") q = Except.error e) :
    execute_query B m q =
      (m, (false, Payload.msg e.pyStr),
        [Event.clientQuery client (m.current_database.getD "") q]) :=
  execute_query_error_eq B m q client e hc he

theorem c2_witness :
    get_current_connection connectedManager =
      some { cluster := "c", token := "tok" } ∧
    failingBackend.runQuery { cluster := "c", token := "tok" }
        (connectedManager.current_database.getD "") "test query" =
      Except.error (PyErr.kustoService "Query error") ∧
    execute_query failingBackend connectedManager "test query" =
      (connectedManager, (false, Payload.msg "Query error"),
        [Event.clientQuery { cluster := "c", token := "tok" }
          "d" "test query"]) :=
  ⟨rfl, rfl,
    c2_execute_query_backend_error_returns_stringified failingBackend
      connectedManager "test query" { cluster := "c", token := "tok" }
      (PyErr.kustoService "Query error") rfl rfl⟩

/-- Claim C3: when no current handle resolves (identity unset or its key
absent from the map), execute_query returns a Failure whose message
contains the text No active connection, and performs no backend event. -/
theorem c3_execute_query_no_active_connection
    (B : Backend) (m : Manager) (q : String)
    (h : get_current_connection m = none) :
    execute_query B m q =
      (m, (false, Payload.msg noActiveConnectionMsg), []) ∧
    noActiveConnectionMsg =
      "No active connection" ++ ". Please connect to a Kusto cluster first." :=
  ⟨execute_query_none_eq B m q h, rfl⟩

theorem c3_witness :
    get_current_connection fileManager = none ∧
    execute_query demoBackend fileManager "test query" =
      (fileManager, (false, Payload.msg noActiveConnectionMsg), []) :=
  ⟨rfl,
    (c3_execute_query_no_active_connection demoBackend fileManager
      "test query" rfl).1⟩

/-- Claim C4: a failing execute_query call leaves the connections map and
the current identity unchanged (the returned state is the input state),
reports failure, and the established handle is still the one that
resolves afterward — no eviction on query failure. -/
theorem c4_query_failure_preserves_cache_and_identity
    (B : Backend) (m : Manager) (q : String) (client : Client) (e : PyErr)
    (hc : get_current_connection m = some client)
    (he : B.runQuery client (m.current_database.getD "") q = Except.error e) :
    (execute_query B m q).1 = m ∧
    (execute_query B m q).2.1.1 = false ∧
    (execute_query B m q).1.connections = m.connections ∧
    (execute_query B m q).1.current_cluster = m.current_cluster ∧
    (execute_query B m q).1.current_database = m.current_database ∧
    get_current_connection (execute_query B m q).1 = some client := by
  rw [execute_query_error_eq B m q client e hc he]
  exact ⟨rfl, rfl, rfl, rfl, rfl, hc⟩

theorem c4_witness :
    get_current_connection connectedManager =
      some { cluster := "c", token := "tok" } ∧
    (execute_query failingBackend connectedManager "test query").1 =
      connectedManager ∧
    get_current_connection
        (execute_query failingBackend connectedManager "test query").1 =
      some { cluster := "c", token := "tok" } :=
  ⟨rfl,
    (c4_query_failure_preserves_cache_and_identity failingBackend
      connectedManager "test query" { cluster := "c", token := "tok" }
      (PyErr.kustoService "Query error") rfl rfl).1,
    (c4_query_failure_preserves_cache_and_identity failingBackend
      connectedManager "test query" { cluster := "c", token := "tok" }
      (PyErr.kustoService "Query error") rfl rfl).2.2.2.2.2⟩

theorem truthy_some_of_ne {s : String} (h : s ≠ "") : truthy (some s) = true := by
  simp [truthy, h]

/-- The manager state after `initialize_connection` caches a fresh handle
for `(c, d)` built from token `tok`. -/
def estManager (m : Manager) (c d tok : String) : Manager :=
  { m with
    connections :=
      m.connections ++ [(connectionKey c d, { cluster := c, token := tok })],
    current_cluster := some c,
    current_database := some d }

/-- Claim C5: with a cooperative backend (token acquisition and the probe
query succeed) and a manager whose `config_file` attribute exists (the
non-env constructor path) and that does not yet cache the key, calling
initialize_connection twice with the same `(c, d)` succeeds both times;
the first call performs the token acquisition and probe, and the second
call is a cache hit whose backend event trace is empty (no credential
acquisition, no client construction, no probe) and which leaves the
manager state unchanged. -/
theorem c5_initialize_twice_second_is_cache_hit
    (B : Backend) (m : Manager) (w : World) (c d tok : String) (r : Reply)
    (hfresh : m.connections.lookup (connectionKey c d) = none)
    (hfile : m.config_file = true)
    (htok : B.getToken = Except.ok tok)
    (hprobe : B.runQuery { cluster := c, token := tok } d probeQuery =
      Except.ok r) :
    initialize_connection B m w c d =
      Except.ok (true, estManager m c d tok,
        saveResult (estManager m c d tok) w,
        [Event.acquireToken,
         Event.clientQuery { cluster := c, token := tok } d probeQuery]) ∧
    initialize_connection B (estManager m c d tok)
        (saveResult (estManager m c d tok) w) c d =
      Except.ok (true, estManager m c d tok,
        saveResult (estManager m c d tok) (saveResult (estManager m c d tok) w),
        []) := by
  have hfile1 : (estManager m c d tok).config_file = true := hfile
  have hl : (estManager m c d tok).connections.lookup (connectionKey c d) =
      some { cluster := c, token := tok } := by
    show (m.connections ++
      [(connectionKey c d, ({ cluster := c, token := tok } : Client))]).lookup
        (connectionKey c d) = some { cluster := c, token := tok }
    rw [lookup_append_of_lookup_none _ _ _ hfresh]
    exact lookup_cons_self _ _ _
  have hsave1 : ∀ w2 : World,
      save_config
        { connections :=
            m.connections ++ [(connectionKey c d,
              ({ cluster := c, token := tok } : Client))],
          current_cluster := some c, current_database := some d,
          config_file := m.config_file } w2 =
        Except.ok (saveResult (estManager m c d tok) w2) :=
    fun w2 => save_config_ok _ w2 hfile1
  have hsave2 : ∀ w2 : World,
      save_config
        { connections := (estManager m c d tok).connections,
          current_cluster := some c, current_database := some d,
          config_file := (estManager m c d tok).config_file } w2 =
        Except.ok (saveResult (estManager m c d tok) w2) :=
    fun w2 => save_config_ok _ w2 hfile1
  constructor
  · simp only [initialize_connection, hfresh, Option.isSome_none,
      Bool.false_eq_true, if_false, htok, hprobe, hsave1]
    rfl
  · simp only [initialize_connection, hl, Option.isSome_some, if_true,
      hsave2]
    rfl

theorem c5_witness :
    fileManager.connections.lookup (connectionKey "c" "d") = none ∧
    fileManager.config_file = true ∧
    (initialize_connection demoBackend fileManager w0 "c" "d" =
        Except.ok (true, estManager fileManager "c" "d" "tok",
          saveResult (estManager fileManager "c" "d" "tok") w0,
          [Event.acquireToken,
           Event.clientQuery { cluster := "c", token := "tok" }
             "d" probeQuery]) ∧
      initialize_connection demoBackend (estManager fileManager "c" "d" "tok")
          (saveResult (estManager fileManager "c" "d" "tok") w0) "c" "d" =
        Except.ok (true, estManager fileManager "c" "d" "tok",
          saveResult (estManager fileManager "c" "d" "tok")
            (saveResult (estManager fileManager "c" "d" "tok") w0),
          [])) :=
  ⟨rfl, rfl,
    c5_initialize_twice_second_is_cache_hit demoBackend fileManager w0
      "c" "d" "tok" emptyReply rfl rfl rfl rfl⟩

/-- Claim C6 counterexample: the claim quantifies over every pair, but
with the empty cluster string (falsy in Python) initialize_connection
can return True (a cooperative backend accepts the probe) while
is_connected is false and get_connection_details reports
Not connected for the cluster: evaluated here on concrete input. -/
theorem c6_counterexample_empty_cluster :
    (initialize_connection demoBackend fileManager w0 "" "db").map
      (fun res => (res.1, is_connected res.2.1,
        get_connection_details res.2.1)) =
      Except.ok (true, false, ("Not connected", "db")) := rfl

/-- Claim C6, amended: for every pair with a nonempty cluster string and
a nonempty database string, immediately after initialize_connection
returns True, is_connected returns true and get_connection_details
returns exactly the pair. (The unamended claim fails only at empty
strings, which the truthiness tests in the source treat as unset.) -/
theorem c6_after_success_connected_and_details
    (B : Backend) (m : Manager) (w : World) (c d : String)
    (m1 : Manager) (w1 : World) (ev : List Event)
    (hc : c ≠ "") (hd : d ≠ "")
    (h : initialize_connection B m w c d = Except.ok (true, m1, w1, ev)) :
    is_connected m1 = true ∧ get_connection_details m1 = (c, d) := by
  simp only [initialize_connection] at h
  split at h
  · rename_i hguard
    split at h
    · simp at h
    · rename_i w2 heq
      simp only [Except.ok.injEq, Prod.mk.injEq] at h
      obtain ⟨-, hm, -, -⟩ := h
      subst hm
      constructor
      · simp only [is_connected, truthy_some_of_ne hc, truthy_some_of_ne hd,
          Bool.not_true, Bool.or_self, Bool.false_eq_true, if_false,
          Option.getD_some]
        exact hguard
      · simp [get_connection_details, orNotConnected, hc, hd]
  · rename_i hguard
    split at h
    · simp at h
    · rename_i tok htok
      split at h
      · simp at h
      · rename_i r hprobe
        split at h
        · simp at h
        · rename_i w2 heq
          simp only [Except.ok.injEq, Prod.mk.injEq] at h
          obtain ⟨-, hm, -, -⟩ := h
          subst hm
          have hnone : m.connections.lookup (connectionKey c d) = none := by
            cases hx : m.connections.lookup (connectionKey c d) with
            | none => rfl
            | some v => rw [hx] at hguard; simp at hguard
          constructor
          · simp only [is_connected, truthy_some_of_ne hc,
              truthy_some_of_ne hd, Bool.not_true, Bool.or_self,
              Bool.false_eq_true, if_false, Option.getD_some]
            rw [lookup_append_of_lookup_none _ _ _ hnone, lookup_cons_self]
            rfl
          · simp [get_connection_details, orNotConnected, hc, hd]

def c6m1 : Manager :=
  { connections := [(connectionKey "c" "d", { cluster := "c", token := "tok" })],
    current_cluster := some "c", current_database := some "d",
    config_file := true }

def c6w1 : World :=
  { file := some (ConfigContent.record (some "c") (some "d")),
    readFails := false, writeFails := false }

theorem c6_witness :
    ("c" : String) ≠ "" ∧ ("d" : String) ≠ "" ∧
    initialize_connection demoBackend fileManager w0 "c" "d" =
      Except.ok (true, c6m1, c6w1,
        [Event.acquireToken,
         Event.clientQuery { cluster := "c", token := "tok" } "d" probeQuery]) ∧
    (is_connected c6m1 = true ∧ get_connection_details c6m1 = ("c", "d")) :=
  ⟨by decide, by decide, rfl,
    c6_after_success_connected_and_details demoBackend fileManager w0 "c" "d"
      c6m1 c6w1
      [Event.acquireToken,
       Event.clientQuery { cluster := "c", token := "tok" } "d" probeQuery]
      (by decide) (by decide) rfl⟩

/-- Claim C7: writing the identity (c, d) through save_config and then
constructing a fresh manager over that world, with no effective
environment override, restores the identity to exactly (c, d) while the
new connections map is empty: restoration establishes no handle. -/
theorem c7_persist_restore_roundtrip
    (m : Manager) (w : World) (env : Env) (c d : String)
    (hfile : m.config_file = true)
    (hcc : m.current_cluster = some c)
    (hcd : m.current_database = some d)
    (hw : w.writeFails = false)
    (hr : w.readFails = false)
    (henv : (truthy env.azure_kusto_cluster &&
      truthy env.azure_kusto_database) = false) :
    save_config m w =
      Except.ok { w with
        file := some (ConfigContent.record (some c) (some d)) } ∧
    mkManager env
        { w with file := some (ConfigContent.record (some c) (some d)) } =
      { connections := [], current_cluster := some c,
        current_database := some d, config_file := true } := by
  constructor
  · rw [save_config_ok m w hfile]
    unfold saveResult
    rw [hw, hcc, hcd]
    simp
  · simp [mkManager, henv, load_config, hr]

theorem c7_witness :
    connectedManager.config_file = true ∧
    connectedManager.current_cluster = some "c" ∧
    connectedManager.current_database = some "d" ∧
    (save_config connectedManager w0 =
        Except.ok { w0 with
          file := some (ConfigContent.record (some "c") (some "d")) } ∧
      mkManager { azure_kusto_cluster := none, azure_kusto_database := none }
          { w0 with
            file := some (ConfigContent.record (some "c") (some "d")) } =
        { connections := [], current_cluster := some "c",
          current_database := some "d", config_file := true }) :=
  ⟨rfl, rfl, rfl,
    c7_persist_restore_roundtrip connectedManager w0
      { azure_kusto_cluster := none, azure_kusto_database := none }
      "c" "d" rfl rfl rfl rfl rfl rfl⟩

/-- Claim C8: get_tables returns exactly the table names in reply order
when the first primary result is the two TableName rows, and returns the
empty list on every failure: no resolvable connection, a backend
exception, a reply without the primary_results attribute, an empty
primary_results list, or a first table with a row missing the TableName
column (a KeyError, swallowed). -/
theorem c8_get_tables_reply_order_and_tolerant_failures
    (B : Backend) (m : Manager) :
    (∀ client r rest, get_current_connection m = some client →
      B.runQuery client (m.current_database.getD "") tablesQuery =
        Except.ok r →
      r.primary_results =
        some ([[("TableName", "table1")], [("TableName", "table2")]] :: rest) →
      (get_tables B m).1 = ["table1", "table2"]) ∧
    (get_current_connection m = none → get_tables B m = ([], [])) ∧
    (∀ client e, get_current_connection m = some client →
      B.runQuery client (m.current_database.getD "") tablesQuery =
        Except.error e →
      (get_tables B m).1 = []) ∧
    (∀ client r, get_current_connection m = some client →
      B.runQuery client (m.current_database.getD "") tablesQuery =
        Except.ok r →
      r.primary_results = none →
      (get_tables B m).1 = []) ∧
    (∀ client r, get_current_connection m = some client →
      B.runQuery client (m.current_database.getD "") tablesQuery =
        Except.ok r →
      r.primary_results = some [] →
      (get_tables B m).1 = []) ∧
    (∀ client r t rest e, get_current_connection m = some client →
      B.runQuery client (m.current_database.getD "") tablesQuery =
        Except.ok r →
      r.primary_results = some (t :: rest) →
      extractTableNames t = Except.error e →
      (get_tables B m).1 = []) := by
  refine ⟨?_, ?_, ?_, ?_, ?_, ?_⟩
  · intro client r rest hc hq hr
    have hdb := (current_some_truthy hc).2
    simp only [get_tables, hc, hdb, Bool.not_true, Bool.false_eq_true,
      if_false, execute_query_ok_eq B m tablesQuery client r hc hq, hr]
    rfl
  · intro h
    simp only [get_tables, h]
  · intro client e hc hq
    have hdb := (current_some_truthy hc).2
    simp only [get_tables, hc, hdb, Bool.not_true, Bool.false_eq_true,
      if_false, execute_query_error_eq B m tablesQuery client e hc hq]
  · intro client r hc hq hr
    have hdb := (current_some_truthy hc).2
    simp only [get_tables, hc, hdb, Bool.not_true, Bool.false_eq_true,
      if_false, execute_query_ok_eq B m tablesQuery client r hc hq, hr]
  · intro client r hc hq hr
    have hdb := (current_some_truthy hc).2
    simp only [get_tables, hc, hdb, Bool.not_true, Bool.false_eq_true,
      if_false, execute_query_ok_eq B m tablesQuery client r hc hq, hr]
  · intro client r t rest e hc hq hr hx
    have hdb := (current_some_truthy hc).2
    simp only [get_tables, hc, hdb, Bool.not_true, Bool.false_eq_true,
      if_false, execute_query_ok_eq B m tablesQuery client r hc hq, hr, hx]

def tablesReply : Reply :=
  { primary_results :=
      some [[[("TableName", "table1")], [("TableName", "table2")]]] }

def tablesBackend : Backend :=
  { getToken := Except.ok "tok",
    runQuery := fun _ _ q =>
      if q == tablesQuery then Except.ok tablesReply else Except.ok emptyReply }

theorem c8_witness :
    get_current_connection connectedManager =
      some { cluster := "c", token := "tok" } ∧
    tablesBackend.runQuery { cluster := "c", token := "tok" }
        (connectedManager.current_database.getD "") tablesQuery =
      Except.ok tablesReply ∧
    tablesReply.primary_results =
      some ([[("TableName", "table1")], [("TableName", "table2")]] :: []) ∧
    (get_tables tablesBackend connectedManager).1 = ["table1", "table2"] :=
  ⟨rfl, rfl, rfl,
    (c8_get_tables_reply_order_and_tolerant_failures tablesBackend
      connectedManager).1 { cluster := "c", token := "tok" } tablesReply []
      rfl rfl rfl⟩

/-- Claim C9: get_table_schema returns the structure that the JSON
parser (the json_loads oracle) produces from the string held in the
Schema field of the first row of the first primary result, and returns
None on every failure: no resolvable connection, a backend exception, a
reply without primary_results, an empty primary_results list, an empty
first table, a first row without the Schema field, or a parse error. -/
theorem c9_get_table_schema_parse_and_tolerant_failures
    {α : Type} (B : Backend) (json_loads : String → Except PyErr α)
    (m : Manager) (tname : String) :
    (∀ client r row rows rest s v, get_current_connection m = some client →
      B.runQuery client (m.current_database.getD "") (schemaQuery tname) =
        Except.ok r →
      r.primary_results = some ((row :: rows) :: rest) →
      row.lookup "Schema" = some s →
      json_loads s = Except.ok v →
      (get_table_schema B json_loads m tname).1 = some v) ∧
    (get_current_connection m = none →
      get_table_schema B json_loads m tname = (none, [])) ∧
    (∀ client e, get_current_connection m = some client →
      B.runQuery client (m.current_database.getD "") (schemaQuery tname) =
        Except.error e →
      (get_table_schema B json_loads m tname).1 = none) ∧
    (∀ client r, get_current_connection m = some client →
      B.runQuery client (m.current_database.getD "") (schemaQuery tname) =
        Except.ok r →
      r.primary_results = none →
      (get_table_schema B json_loads m tname).1 = none) ∧
    (∀ client r, get_current_connection m = some client →
      B.runQuery client (m.current_database.getD "") (schemaQuery tname) =
        Except.ok r →
      r.primary_results = some [] →
      (get_table_schema B json_loads m tname).1 = none) ∧
    (∀ client r rest, get_current_connection m = some client →
      B.runQuery client (m.current_database.getD "") (schemaQuery tname) =
        Except.ok r →
      r.primary_results = some ([] :: rest) →
      (get_table_schema B json_loads m tname).1 = none) ∧
    (∀ client r row rows rest, get_current_connection m = some client →
      B.runQuery client (m.current_database.getD "") (schemaQuery tname) =
        Except.ok r →
      r.primary_results = some ((row :: rows) :: rest) →
      row.lookup "Schema" = none →
      (get_table_schema B json_loads m tname).1 = none) ∧
    (∀ client r row rows rest s e, get_current_connection m = some client →
      B.runQuery client (m.current_database.getD "") (schemaQuery tname) =
        Except.ok r →
      r.primary_results = some ((row :: rows) :: rest) →
      row.lookup "Schema" = some s →
      json_loads s = Except.error e →
      (get_table_schema B json_loads m tname).1 = none) := by
  refine ⟨?_, ?_, ?_, ?_, ?_, ?_, ?_, ?_⟩
  · intro client r row rows rest s v hc hq hr hrow hj
    have hdb := (current_some_truthy hc).2
    simp only [get_table_schema, hc, hdb, Bool.not_true, Bool.false_eq_true,
      if_false, execute_query_ok_eq B m (schemaQuery tname) client r hc hq,
      hr, hrow, hj]
  · intro h
    simp only [get_table_schema, h]
  · intro client e hc hq
    have hdb := (current_some_truthy hc).2
    simp only [get_table_schema, hc, hdb, Bool.not_true, Bool.false_eq_true,
      if_false, execute_query_error_eq B m (schemaQuery tname) client e hc hq]
  · intro client r hc hq hr
    have hdb := (current_some_truthy hc).2
    simp only [get_table_schema, hc, hdb, Bool.not_true, Bool.false_eq_true,
      if_false, execute_query_ok_eq B m (schemaQuery tname) client r hc hq, hr]
  · intro client r hc hq hr
    have hdb := (current_some_truthy hc).2
    simp only [get_table_schema, hc, hdb, Bool.not_true, Bool.false_eq_true,
      if_false, execute_query_ok_eq B m (schemaQuery tname) client r hc hq, hr]
  · intro client r rest hc hq hr
    have hdb := (current_some_truthy hc).2
    simp only [get_table_schema, hc, hdb, Bool.not_true, Bool.false_eq_true,
      if_false, execute_query_ok_eq B m (schemaQuery tname) client r hc hq, hr]
  · intro client r row rows rest hc hq hr hrow
    have hdb := (current_some_truthy hc).2
    simp only [get_table_schema, hc, hdb, Bool.not_true, Bool.false_eq_true,
      if_false, execute_query_ok_eq B m (schemaQuery tname) client r hc hq,
      hr, hrow]
  · intro client r row rows rest s e hc hq hr hrow hj
    have hdb := (current_some_truthy hc).2
    simp only [get_table_schema, hc, hdb, Bool.not_true, Bool.false_eq_true,
      if_false, execute_query_ok_eq B m (schemaQuery tname) client r hc hq,
      hr, hrow, hj]

def schemaReply : Reply :=
  { primary_results := some [[[("Schema", "GOOD")]]] }

def schemaBackend : Backend :=
  { getToken := Except.ok "tok",
    runQuery := fun _ _ _ => Except.ok schemaReply }

def demoJsonLoads : String → Except PyErr Nat :=
  fun s => if s == "GOOD" then Except.ok 42
    else Except.error (PyErr.jsonDecodeError "Expecting value")

theorem c9_witness :
    get_current_connection connectedManager =
      some { cluster := "c", token := "tok" } ∧
    schemaBackend.runQuery { cluster := "c", token := "tok" }
        (connectedManager.current_database.getD "") (schemaQuery "T") =
      Except.ok schemaReply ∧
    schemaReply.primary_results = some (([("Schema", "GOOD")] :: []) :: []) ∧
    ([("Schema", "GOOD")] : Row).lookup "Schema" = some "GOOD" ∧
    demoJsonLoads "GOOD" = Except.ok 42 ∧
    (get_table_schema schemaBackend demoJsonLoads connectedManager "T").1 =
      some 42 :=
  ⟨rfl, rfl, rfl, rfl, rfl,
    (c9_get_table_schema_parse_and_tolerant_failures schemaBackend
      demoJsonLoads connectedManager "T").1 { cluster := "c", token := "tok" }
      schemaReply [("Schema", "GOOD")] [] [] "GOOD" 42 rfl rfl rfl rfl rfl⟩

def collidedManager : Manager :=
  { connections :=
      [(connectionKey "a:b" "c", { cluster := "a:b", token := "tok" })],
    current_cluster := some "a", current_database := some "b:c",
    config_file := true }

/-- Claim C10: the connection key is the plain concatenation
cluster:database and is not injective: the distinct pairs (a:b, c) and
(a, b:c) share the key a:b:c, so after a successful
initialize_connection(a:b, c) on a fresh manager, pointing the current
identity at (a, b:c) makes is_connected true and get_current_connection
return the handle that was cached for (a:b, c) (its cluster field is
a:b). -/
theorem c10_connection_key_not_injective :
    connectionKey "a:b" "c" = connectionKey "a" "b:c" ∧
    (("a:b", "c") ≠ (("a", "b:c") : String × String)) ∧
    (initialize_connection demoBackend fileManager w0 "a:b" "c").map
      (fun res => (res.1, res.2.1.connections)) =
      Except.ok (true,
        [(connectionKey "a:b" "c", { cluster := "a:b", token := "tok" })]) ∧
    is_connected collidedManager = true ∧
    get_current_connection collidedManager =
      some { cluster := "a:b", token := "tok" } :=
  ⟨rfl, by decide, rfl, rfl, rfl⟩
